import Mathlib

/-!
Verification of the polystrladder copy-trading scripts.

The repository contains the analysis and verification scripts of a
market-copying paper-trading bot.  The eligibility and executor checks and
the price-fetch error handling are embedded here directly from
`src/tests/verify_copy_trading_logic.py`; the recorded paper-trade dump is
embedded from `src/analyze_paper_trades.py`.  The position-lifecycle core
(exit-policy engine, trailing take-profit state, DCA ladder) is not part of
the provided source set, so those definitions are modelled from the
specification, as marked in their doc comments.  Prices and sizes are
modelled as exact rationals.
-/

namespace Polystrladder

/-! Configuration constants shared by `copyConfig.ts`-derived CONFIG dictionaries
in `verify_copy_trading_logic.py` and `validate_components.py`. -/

def MIN_PRICE : ℚ := 65 / 100

def MAX_PRICE : ℚ := 85 / 100

def MIN_WHALE_SIZE : ℚ := 50

def TRIGGER_PCT : ℚ := 12

def TRAIL_PCT : ℚ := 4

def HARD_CAP_PRICE : ℚ := 95 / 100

def SL_TRIGGER_PCT : ℚ := -12

def L2_TRIGGER_PCT : ℚ := -5

def L1_COST_BASIS : ℚ := 100

def L2_COST_BASIS : ℚ := 75

/-! Whale trade records and the eligibility filter,
embedded from `simulate_eligibility_check` in
`src/tests/verify_copy_trading_logic.py` (lines 55-82).
Fields are optional because the script reads them with `dict.get`,
defaulting `side` to none and `price`/`size` to 0. -/

structure WhaleTrade where
  side : Option String
  price : Option ℚ
  size : Option ℚ
  deriving DecidableEq, Repr

/-- Branches of `simulate_eligibility_check`, one per distinct skip
message produced by the script (side / price below min / price above
max / size too small / the eligible message). -/
inductive SkipBranch
  | notABuy
  | priceBelowMin
  | priceAboveMax
  | sizeTooSmall
  | passed
  deriving DecidableEq, Repr

/-- Result dictionary of the eligibility simulation. -/
structure EligResult where
  eligible : Bool
  reason : SkipBranch
  deriving DecidableEq, Repr

/-- Embedding of `simulate_eligibility_check(trade)`: side must be BUY,
then price within [MIN_PRICE, MAX_PRICE], then size * price at least
MIN_WHALE_SIZE, first failing check wins.  A missing price or size reads
as 0 via `trade.get(key, 0)`. -/
def simulate_eligibility_check (t : WhaleTrade) : EligResult :=
  if t.side ≠ some "BUY" then ⟨false, .notABuy⟩
  else if t.price.getD 0 < MIN_PRICE then ⟨false, .priceBelowMin⟩
  else if t.price.getD 0 > MAX_PRICE then ⟨false, .priceAboveMax⟩
  else if t.size.getD 0 * t.price.getD 0 < MIN_WHALE_SIZE then ⟨false, .sizeTooSmall⟩
  else ⟨true, .passed⟩

/-- Reason codes named by the specification (section 4.1). -/
inductive ReasonCode
  | NOT_A_BUY
  | PRICE_OUT_OF_RANGE
  | SIZE_TOO_SMALL
  | NOT_LIVE
  | ELIGIBLE
  deriving DecidableEq, Repr

/-- Maps each skip branch of the script to the specification's reason code;
the two price branches carry distinct messages but both denote the
price-range check. -/
def reasonCode : SkipBranch → ReasonCode
  | .notABuy => .NOT_A_BUY
  | .priceBelowMin => .PRICE_OUT_OF_RANGE
  | .priceAboveMax => .PRICE_OUT_OF_RANGE
  | .sizeTooSmall => .SIZE_TOO_SMALL
  | .passed => .ELIGIBLE

/-- Embedding of `simulate_executor_check(current_price)` from
`src/tests/verify_copy_trading_logic.py` (lines 84-99): the execution-time
re-check of the price band; returns the `would_execute` field. -/
def simulate_executor_check (current_price : ℚ) : Bool :=
  if current_price < MIN_PRICE then false
  else if current_price > MAX_PRICE then false
  else true

/-- Modelled from the spec: the NO_POSITION to L1_OPEN transition of
section 4.2 (the Position State Machine is absent from src/).  Entry
requires the cached observation-time `copy_eligible` flag AND the
execution-time executor range check, the latter embedded from
`simulate_executor_check`. -/
def enterL1 (copy_eligible : Bool) (current_price : ℚ) : Bool :=
  copy_eligible && simulate_executor_check current_price

/-! Price fetching, embedded from `fetch_current_price` in
`src/tests/verify_copy_trading_logic.py` (lines 101-113) and its caller
`run_verification` (lines 166-175). -/

/-- Outcome of the HTTP midpoint request: either the request raised
(timeout, network error), or a response arrived with a status code and an
optional `mid` field (read with `data.get('mid', 0)`). -/
inductive FetchOutcome
  | failure
  | response (status : Nat) (mid : Option ℚ)
  deriving DecidableEq, Repr

/-- Embedding of `fetch_current_price`: returns `float(data.get('mid', 0))`
on a 200 response and the sentinel 0 in every other case (non-200 status,
exception).  It is a total function into ℚ: it never raises and never
returns a none-like value. -/
def fetch_current_price : FetchOutcome → ℚ
  | .failure => 0
  | .response status mid => if status = 200 then mid.getD 0 else 0

/-- Embedding of the caller gate in `run_verification`: the executor entry
check runs only when a token id is present and the fetched price is
strictly positive (`if current_price > 0`). -/
def caller_runs_executor_check (has_token_id : Bool) (r : FetchOutcome) : Bool :=
  has_token_id && decide (0 < fetch_current_price r)

/-! Exit Policy Engine and trailing state, modelled from the spec
(sections 3, 4.2 and 4.3); the live engine is absent from src/.  The
numeric scenario constants match `test_exit_conditions` in
`src/tests/validate_components.py` (lines 326-367). -/

/-- Unrealized return percentage `(current_price - entry_price) / entry_price * 100`. -/
def unrealizedPct (entry_price current_price : ℚ) : ℚ :=
  (current_price - entry_price) / entry_price * 100

/-- Reasons an exit rule can fire, in precedence order. -/
inductive ExitReason
  | HARD_CAP
  | TP_TRAIL
  | STOP_LOSS
  deriving DecidableEq, Repr

/-- One open ladder lot of a position. -/
structure Lot where
  entry_price : ℚ
  cost_basis : ℚ
  high_water_mark : ℚ
  trailing_active : Bool
  deriving DecidableEq, Repr

/-- Modelled from the spec: a freshly opened lot has
`high_water_mark = entry_price` and `trailing_active = false` (section 3). -/
def initLot (entry_price cost_basis : ℚ) : Lot :=
  ⟨entry_price, cost_basis, entry_price, false⟩

/-- Modelled from the spec: per-sample state update of an open lot
(sections 3 and 4.3).  The high-water mark is the maximum current price
seen since entry, and `trailing_active` arms once unrealized return
reaches TRIGGER_PCT and never reverts. -/
def updateLot (l : Lot) (current_price : ℚ) : Lot :=
  { l with
    high_water_mark := max l.high_water_mark current_price,
    trailing_active :=
      l.trailing_active || decide (TRIGGER_PCT ≤ unrealizedPct l.entry_price current_price) }

/-- Modelled from the spec: `decide_exit(position, current_price)` of
section 4.3, evaluated in precedence order HARD_CAP, then TP_TRAIL, then
STOP_LOSS, first match wins. -/
def decide_exit (l : Lot) (current_price : ℚ) : Option ExitReason :=
  if HARD_CAP_PRICE ≤ current_price then some .HARD_CAP
  else if l.trailing_active = true ∧ current_price ≤ l.high_water_mark * (1 - TRAIL_PCT / 100) then
    some .TP_TRAIL
  else if unrealizedPct l.entry_price current_price ≤ SL_TRIGGER_PCT then some .STOP_LOSS
  else none

/-- Modelled from the spec: processing one price sample updates the lot
state and then evaluates the exit rules on the updated state. -/
def processSample (l : Lot) (current_price : ℚ) : Lot × Option ExitReason :=
  let l' := updateLot l current_price
  (l', decide_exit l' current_price)

/-- Result of running a lot over a sequence of price samples. -/
inductive LotRun
  | stillOpen (l : Lot)
  | closed (exit_price : ℚ) (reason : ExitReason)
  deriving DecidableEq, Repr

/-- Modelled from the spec: fold a lot over a price history; the first
sample on which an exit rule fires closes the lot at that sample's price. -/
def runLot (l : Lot) : List ℚ → LotRun
  | [] => .stillOpen l
  | p :: ps =>
    match processSample l p with
    | (l', none) => runLot l' ps
    | (_, some r) => .closed p r

/-! DCA ladder, modelled from the spec (section 4.2); the numeric trigger
matches `test_entry_logic` in `src/tests/validate_components.py`
(lines 314-319). -/

/-- State of one tracked opportunity's ladder: the L1 entry price and open
flag, and the optional L2 lot. -/
structure Opportunity where
  l1_entry_price : ℚ
  l1_open : Bool
  l2 : Option Lot
  deriving DecidableEq, Repr

/-- Modelled from the spec: the L1_OPEN to L1_OPEN+L2_OPEN transition.  A
second lot with cost basis L2_COST_BASIS opens at the current price when
unrealized return on the open L1 lot has dropped to L2_TRIGGER_PCT and no
L2 lot exists yet; a position never DCAs more than once. -/
def dcaStep (o : Opportunity) (current_price : ℚ) : Opportunity :=
  match o.l2 with
  | some _ => o
  | none =>
    if o.l1_open = true ∧ unrealizedPct o.l1_entry_price current_price ≤ L2_TRIGGER_PCT then
      { o with l2 := some (initLot current_price L2_COST_BASIS) }
    else o

/-! Live-only eligibility, modelled from the spec (section 4.1 check 4).
The LIVE_ONLY configuration flag appears in the CONFIG of
`src/tests/validate_components.py` (line 33) but the simulated eligibility
functions in src/ omit the check; the live/pre-game comparison
(game start at or before now means LIVE) is embedded from
`test_live_game_detection` in `src/tests/validate_components.py`
(lines 148-180). -/

/-- Modelled from the spec: the full Eligibility Filter including check 4.
Checks 1-3 are the embedded `simulate_eligibility_check`; when LIVE_ONLY
is set, a market whose game-start time is after the observation time is
rejected with NOT_LIVE. -/
def evaluateCopyEligibility (live_only : Bool) (t : WhaleTrade)
    (game_start_time obs_time : ℤ) : Bool × ReasonCode :=
  let base := simulate_eligibility_check t
  if base.eligible = false then (false, reasonCode base.reason)
  else if live_only = true ∧ obs_time < game_start_time then (false, .NOT_LIVE)
  else (true, .ELIGIBLE)

/-! Recorded paper trades, embedded from the TRADE_DATA dump and
`parse_trades` in `src/analyze_paper_trades.py` (lines 13-102).  Each
record keeps the columns `parse_trades` reads, with decimal strings as
exact rationals. -/

/-- One parsed row of TRADE_DATA, with the fields of the PaperTrade
dataclass used by the analysis. -/
structure PaperTrade where
  id : String
  entry_price : ℚ
  shares : ℚ
  cost_basis : ℚ
  ladder_level : Nat
  current_price : ℚ
  exit_price : ℚ
  high_water_mark : ℚ
  trailing_active : Bool
  exit_reason : String
  realized_pnl : ℚ
  realized_pct : ℚ
  status : String
  deriving DecidableEq, Repr

/-- Floating-point tolerance used by the testable properties (1e-9). -/
def TOL : ℚ := 1 / 1000000000

/-- Row `d6e68f92-...` of TRADE_DATA (line 46 of
`src/analyze_paper_trades.py`), singled out because its recorded fields
are mutually inconsistent. -/
def trade_d6e68f92 : PaperTrade :=
  { id := "d6e68f92-e021-4f94-ac66-82e98995acc6", entry_price := 72 / 100,
    shares := 1388888888888889 / 10000000000000, cost_basis := 100, ladder_level := 1,
    current_price := 99 / 100, exit_price := 95 / 100, high_water_mark := 825 / 1000,
    trailing_active := true, exit_reason := "TP_TRAIL", realized_pnl := 376 / 10,
    realized_pct := 3767 / 100, status := "CLOSED" }

/-- Embedding of the full TRADE_DATA dump of `src/analyze_paper_trades.py`
(lines 14-48), in file order, as parsed by `parse_trades`. -/
def TRADE_DATA : List PaperTrade := [
  { id := "09065512-9a1c-46ed-acb1-ed7672ec6cc9", entry_price := 675 / 1000, shares := 1481481481481482 / 10000000000000,
    cost_basis := 100, ladder_level := 1, current_price := 74 / 100,
    exit_price := 74 / 100, high_water_mark := 78 / 100,
    trailing_active := true, exit_reason := "TP_TRAIL",
    realized_pnl := 9629629629629626 / 1000000000000000, realized_pct := 9629629629629626 / 1000000000000000, status := "CLOSED" },
  { id := "1310dbe8-e25e-4f4d-a214-e5b0905e4dbf", entry_price := 29 / 100, shares := 3448275862068966 / 10000000000000,
    cost_basis := 100, ladder_level := 1, current_price := 255 / 1000,
    exit_price := 255 / 1000, high_water_mark := 295 / 1000,
    trailing_active := false, exit_reason := "STOP_LOSS",
    realized_pnl := -1206896551724137 / 100000000000000, realized_pct := -1206896551724137 / 100000000000000, status := "CLOSED" },
  { id := "1a944796-8076-42c2-9eae-7b32af59c91b", entry_price := 605 / 1000, shares := 1652892561983471 / 10000000000000,
    cost_basis := 100, ladder_level := 1, current_price := 685 / 1000,
    exit_price := 685 / 1000, high_water_mark := 765 / 1000,
    trailing_active := true, exit_reason := "TP_TRAIL",
    realized_pnl := 1322314049586778 / 100000000000000, realized_pct := 1322314049586778 / 100000000000000, status := "CLOSED" },
  { id := "1bf6a01b-6ce0-4604-a620-5fada1fb83fa", entry_price := 7 / 10, shares := 1428571428571429 / 10000000000000,
    cost_basis := 100, ladder_level := 1, current_price := 565 / 1000,
    exit_price := 565 / 1000, high_water_mark := 7 / 10,
    trailing_active := false, exit_reason := "STOP_LOSS",
    realized_pnl := -1928571428571429 / 100000000000000, realized_pct := -1928571428571429 / 100000000000000, status := "CLOSED" },
  { id := "1dc2727d-06b7-44b8-8b40-2a085ef8e793", entry_price := 255 / 1000, shares := 392156862745098 / 1000000000000,
    cost_basis := 100, ladder_level := 1, current_price := 465 / 1000,
    exit_price := 465 / 1000, high_water_mark := 505 / 1000,
    trailing_active := true, exit_reason := "TP_TRAIL",
    realized_pnl := 823529411764706 / 10000000000000, realized_pct := 823529411764706 / 10000000000000, status := "CLOSED" },
  { id := "216d2645-f905-4686-971d-99b3582a5239", entry_price := 51 / 100, shares := 196078431372549 / 1000000000000,
    cost_basis := 100, ladder_level := 1, current_price := 545 / 1000,
    exit_price := 545 / 1000, high_water_mark := 62 / 100,
    trailing_active := true, exit_reason := "TP_TRAIL",
    realized_pnl := 6862745098039222 / 1000000000000000, realized_pct := 6862745098039222 / 1000000000000000, status := "CLOSED" },
  { id := "28919576-df1c-4aa3-a78c-30bcdd173b67", entry_price := 745 / 1000, shares := 1006711409395973 / 10000000000000,
    cost_basis := 75, ladder_level := 2, current_price := 955 / 1000,
    exit_price := 955 / 1000, high_water_mark := 955 / 1000,
    trailing_active := true, exit_reason := "HARD_CAP",
    realized_pnl := 2114093959731543 / 100000000000000, realized_pct := 2818791946308724 / 100000000000000, status := "CLOSED" },
  { id := "37a574e2-83ea-4b3c-bace-0ab0c60ab62c", entry_price := 465 / 1000, shares := 2150537634408602 / 10000000000000,
    cost_basis := 100, ladder_level := 1, current_price := 505 / 1000,
    exit_price := 505 / 1000, high_water_mark := 53 / 100,
    trailing_active := true, exit_reason := "TP_TRAIL",
    realized_pnl := 8602150537634403 / 1000000000000000, realized_pct := 8602150537634403 / 1000000000000000, status := "CLOSED" },
  { id := "37d91fbc-04ae-41b8-8e30-631e5e8dd525", entry_price := 725 / 1000, shares := 103448275862069 / 1000000000000,
    cost_basis := 75, ladder_level := 2, current_price := 625 / 1000,
    exit_price := 625 / 1000, high_water_mark := 775 / 1000,
    trailing_active := false, exit_reason := "STOP_LOSS",
    realized_pnl := -103448275862069 / 10000000000000, realized_pct := -1379310344827586 / 100000000000000, status := "CLOSED" },
  { id := "421ca7e6-0642-4387-82ea-0e4726e5ab2c", entry_price := 685 / 1000, shares := 145985401459854 / 1000000000000,
    cost_basis := 100, ladder_level := 1, current_price := 735 / 1000,
    exit_price := 735 / 1000, high_water_mark := 775 / 1000,
    trailing_active := true, exit_reason := "TP_TRAIL",
    realized_pnl := 729927007299269 / 100000000000000, realized_pct := 729927007299269 / 100000000000000, status := "CLOSED" },
  { id := "47188b00-3a7e-48da-b7b3-dfed365398a1", entry_price := 79 / 100, shares := 1265822784810127 / 10000000000000,
    cost_basis := 100, ladder_level := 1, current_price := 695 / 1000,
    exit_price := 695 / 1000, high_water_mark := 79 / 100,
    trailing_active := false, exit_reason := "STOP_LOSS",
    realized_pnl := -1202531645569622 / 100000000000000, realized_pct := -1202531645569622 / 100000000000000, status := "CLOSED" },
  { id := "51f9015b-a94b-4165-9f16-359b063a54f2", entry_price := 625 / 1000, shares := 160,
    cost_basis := 100, ladder_level := 1, current_price := 54 / 100,
    exit_price := 54 / 100, high_water_mark := 635 / 1000,
    trailing_active := false, exit_reason := "STOP_LOSS",
    realized_pnl := -1359999999999999 / 100000000000000, realized_pct := -136 / 10, status := "CLOSED" },
  { id := "52ac0aac-9229-4fd1-928e-bf12b35a965c", entry_price := 595 / 1000, shares := 1680672268907563 / 10000000000000,
    cost_basis := 100, ladder_level := 1, current_price := 665 / 1000,
    exit_price := 665 / 1000, high_water_mark := 7 / 10,
    trailing_active := true, exit_reason := "TP_TRAIL",
    realized_pnl := 1176470588235295 / 100000000000000, realized_pct := 1176470588235295 / 100000000000000, status := "CLOSED" },
  { id := "5813df04-cd6d-4dd4-bce2-77c53eef779a", entry_price := 265 / 1000, shares := 3773584905660377 / 10000000000000,
    cost_basis := 100, ladder_level := 1, current_price := 29 / 100,
    exit_price := 29 / 100, high_water_mark := 305 / 1000,
    trailing_active := true, exit_reason := "TP_TRAIL",
    realized_pnl := 943396226415093 / 100000000000000, realized_pct := 943396226415093 / 100000000000000, status := "CLOSED" },
  { id := "5a45d203-bb08-4c07-93ff-eff0629640c0", entry_price := 465 / 1000, shares := 2150537634408602 / 10000000000000,
    cost_basis := 100, ladder_level := 1, current_price := 51 / 100,
    exit_price := 51 / 100, high_water_mark := 535 / 1000,
    trailing_active := true, exit_reason := "TP_TRAIL",
    realized_pnl := 9677419354838705 / 1000000000000000, realized_pct := 9677419354838705 / 1000000000000000, status := "CLOSED" },
  { id := "64560c22-a1b9-4729-9b0b-7ecf4af0b89c", entry_price := 505 / 1000, shares := 198019801980198 / 1000000000000,
    cost_basis := 100, ladder_level := 1, current_price := 525 / 1000,
    exit_price := 525 / 1000, high_water_mark := 59 / 100,
    trailing_active := true, exit_reason := "TP_TRAIL",
    realized_pnl := 3960396039603963 / 1000000000000000, realized_pct := 3960396039603963 / 1000000000000000, status := "CLOSED" },
  { id := "6b2a1921-e464-499c-81e5-91f84b0a933c", entry_price := 18 / 100, shares := 5555555555555555 / 10000000000000,
    cost_basis := 100, ladder_level := 1, current_price := 315 / 1000,
    exit_price := 315 / 1000, high_water_mark := 33 / 100,
    trailing_active := true, exit_reason := "TP_TRAIL",
    realized_pnl := 75, realized_pct := 75, status := "CLOSED" },
  { id := "7eee489d-9923-47a6-a8b0-46c931f58aee", entry_price := 125 / 1000, shares := 800,
    cost_basis := 100, ladder_level := 1, current_price := 135 / 1000,
    exit_price := 135 / 1000, high_water_mark := 145 / 1000,
    trailing_active := true, exit_reason := "TP_TRAIL",
    realized_pnl := 8000000000000007 / 1000000000000000, realized_pct := 8000000000000007 / 1000000000000000, status := "CLOSED" },
  { id := "8d201c62-900a-4d70-8c0a-33097306babc", entry_price := 585 / 1000, shares := 170940170940171 / 1000000000000,
    cost_basis := 100, ladder_level := 1, current_price := 605 / 1000,
    exit_price := 605 / 1000, high_water_mark := 715 / 1000,
    trailing_active := true, exit_reason := "TP_TRAIL",
    realized_pnl := 3418803418803423 / 1000000000000000, realized_pct := 3418803418803423 / 1000000000000000, status := "CLOSED" },
  { id := "8f50abc7-7bc3-4462-9738-d3091f5cb4ba", entry_price := 735 / 1000, shares := 1020408163265306 / 10000000000000,
    cost_basis := 75, ladder_level := 2, current_price := 725 / 1000,
    exit_price := 725 / 1000, high_water_mark := 855 / 1000,
    trailing_active := true, exit_reason := "TP_TRAIL",
    realized_pnl := -1020408163265307 / 1000000000000000, realized_pct := -1360544217687076 / 1000000000000000, status := "CLOSED" },
  { id := "973c970e-c893-4541-aa9e-0a72e71baeeb", entry_price := 755 / 1000, shares := 1324503311258278 / 10000000000000,
    cost_basis := 100, ladder_level := 1, current_price := 86 / 100,
    exit_price := 86 / 100, high_water_mark := 9 / 10,
    trailing_active := true, exit_reason := "TP_TRAIL",
    realized_pnl := 1390728476821192 / 100000000000000, realized_pct := 1390728476821192 / 100000000000000, status := "CLOSED" },
  { id := "a0f74655-3a00-4ff1-8250-c89c73ab805f", entry_price := 14 / 100, shares := 7142857142857142 / 10000000000000,
    cost_basis := 100, ladder_level := 1, current_price := 335 / 1000,
    exit_price := 335 / 1000, high_water_mark := 36 / 100,
    trailing_active := true, exit_reason := "TP_TRAIL",
    realized_pnl := 1392857142857143 / 10000000000000, realized_pct := 1392857142857143 / 10000000000000, status := "CLOSED" },
  { id := "a157a6a2-e569-484a-86de-55bd21983411", entry_price := 8 / 10, shares := 125,
    cost_basis := 100, ladder_level := 1, current_price := 955 / 1000,
    exit_price := 955 / 1000, high_water_mark := 955 / 1000,
    trailing_active := true, exit_reason := "HARD_CAP",
    realized_pnl := 1937499999999999 / 100000000000000, realized_pct := 1937499999999999 / 100000000000000, status := "CLOSED" },
  { id := "a3458867-b856-47f5-848b-56f4b9eb1710", entry_price := 525 / 1000, shares := 1904761904761905 / 10000000000000,
    cost_basis := 100, ladder_level := 1, current_price := 585 / 1000,
    exit_price := 585 / 1000, high_water_mark := 615 / 1000,
    trailing_active := true, exit_reason := "TP_TRAIL",
    realized_pnl := 1142857142857142 / 100000000000000, realized_pct := 1142857142857142 / 100000000000000, status := "CLOSED" },
  { id := "aa9de8a3-1932-4dd0-a5f7-794fe792f8c7", entry_price := 525 / 1000, shares := 1904761904761905 / 10000000000000,
    cost_basis := 100, ladder_level := 1, current_price := 45 / 100,
    exit_price := 45 / 100, high_water_mark := 525 / 1000,
    trailing_active := false, exit_reason := "STOP_LOSS",
    realized_pnl := -1428571428571429 / 100000000000000, realized_pct := -1428571428571429 / 100000000000000, status := "CLOSED" },
  { id := "aef5a932-c11c-48eb-855e-dcd0bbcdef80", entry_price := 165 / 1000, shares := 606060606060606 / 1000000000000,
    cost_basis := 100, ladder_level := 1, current_price := 135 / 1000,
    exit_price := 135 / 1000, high_water_mark := 175 / 1000,
    trailing_active := false, exit_reason := "STOP_LOSS",
    realized_pnl := -1818181818181818 / 100000000000000, realized_pct := -1818181818181818 / 100000000000000, status := "CLOSED" },
  { id := "b1aee239-c15a-4915-8837-65d4aa199811", entry_price := 77 / 100, shares := 1298701298701299 / 10000000000000,
    cost_basis := 100, ladder_level := 1, current_price := 655 / 1000,
    exit_price := 655 / 1000, high_water_mark := 805 / 1000,
    trailing_active := false, exit_reason := "STOP_LOSS",
    realized_pnl := -1493506493506494 / 100000000000000, realized_pct := -1493506493506494 / 100000000000000, status := "CLOSED" },
  { id := "b519a617-c7cc-4cd2-82d1-fdf3bb70a753", entry_price := 305 / 1000, shares := 3278688524590164 / 10000000000000,
    cost_basis := 100, ladder_level := 1, current_price := 145 / 1000,
    exit_price := 145 / 1000, high_water_mark := 33 / 100,
    trailing_active := false, exit_reason := "STOP_LOSS",
    realized_pnl := -5245901639344262 / 100000000000000, realized_pct := -5245901639344262 / 100000000000000, status := "CLOSED" },
  { id := "bddd33e0-2a76-4752-a84c-8cecd374fe44", entry_price := 685 / 1000, shares := 145985401459854 / 1000000000000,
    cost_basis := 100, ladder_level := 1, current_price := 59 / 100,
    exit_price := 59 / 100, high_water_mark := 7 / 10,
    trailing_active := false, exit_reason := "STOP_LOSS",
    realized_pnl := -1386861313868614 / 100000000000000, realized_pct := -1386861313868614 / 100000000000000, status := "CLOSED" },
  { id := "cd732842-9420-47de-a790-1ce506acd861", entry_price := 315 / 1000, shares := 3174603174603175 / 10000000000000,
    cost_basis := 100, ladder_level := 1, current_price := 265 / 1000,
    exit_price := 265 / 1000, high_water_mark := 315 / 1000,
    trailing_active := false, exit_reason := "STOP_LOSS",
    realized_pnl := -1587301587301587 / 100000000000000, realized_pct := -1587301587301587 / 100000000000000, status := "CLOSED" },
  { id := "cf530aba-494d-48ff-bc7f-36eabc019515", entry_price := 5 / 10, shares := 200,
    cost_basis := 100, ladder_level := 1, current_price := 285 / 1000,
    exit_price := 285 / 1000, high_water_mark := 555 / 1000,
    trailing_active := false, exit_reason := "STOP_LOSS",
    realized_pnl := -4300000000000001 / 100000000000000, realized_pct := -4300000000000001 / 100000000000000, status := "CLOSED" },
  { id := "d6bdc3b9-895c-4a46-8457-c9fff6edaebb", entry_price := 685 / 1000, shares := 145985401459854 / 1000000000000,
    cost_basis := 100, ladder_level := 1, current_price := 83 / 100,
    exit_price := 83 / 100, high_water_mark := 865 / 1000,
    trailing_active := true, exit_reason := "TP_TRAIL",
    realized_pnl := 2116788321167882 / 100000000000000, realized_pct := 2116788321167882 / 100000000000000, status := "CLOSED" },
  trade_d6e68f92,
  { id := "e6a25fb9-cc41-4db2-8322-57f31ba87519", entry_price := 645 / 1000, shares := 1550387596899225 / 10000000000000,
    cost_basis := 100, ladder_level := 1, current_price := 85 / 100,
    exit_price := 85 / 100, high_water_mark := 895 / 1000,
    trailing_active := true, exit_reason := "TP_TRAIL",
    realized_pnl := 317829457364341 / 10000000000000, realized_pct := 317829457364341 / 10000000000000, status := "CLOSED" },
  { id := "e9e5f444-db3e-4afb-825f-d010b557c8c1", entry_price := 545 / 1000, shares := 1834862385321101 / 10000000000000,
    cost_basis := 100, ladder_level := 1, current_price := 455 / 1000,
    exit_price := 455 / 1000, high_water_mark := 565 / 1000,
    trailing_active := false, exit_reason := "STOP_LOSS",
    realized_pnl := -1651376146788991 / 100000000000000, realized_pct := -1651376146788991 / 100000000000000, status := "CLOSED" }]

/-- Trade record with a missing price field and an otherwise eligible
shape, used to probe the ingestion behaviour. -/
def tradeMissingPrice : WhaleTrade := ⟨some "BUY", none, some 1000⟩

/-! Theorems. -/

/-- C1: For every open lot and every price sample, the exit rules are
evaluated in the fixed precedence order HARD_CAP, then TP_TRAIL, then
STOP_LOSS, the first matching rule firing; in particular any sample that
simultaneously satisfies the HARD_CAP condition (current price at least
0.95) and the STOP_LOSS condition (unrealized return at most -12%) exits
with reason HARD_CAP. -/
theorem exit_rules_precedence (l : Lot) (p : ℚ) :
    (HARD_CAP_PRICE ≤ p → decide_exit l p = some ExitReason.HARD_CAP)
    ∧ (¬ HARD_CAP_PRICE ≤ p →
        (l.trailing_active = true ∧ p ≤ l.high_water_mark * (1 - TRAIL_PCT / 100)) →
        decide_exit l p = some ExitReason.TP_TRAIL)
    ∧ (¬ HARD_CAP_PRICE ≤ p →
        ¬ (l.trailing_active = true ∧ p ≤ l.high_water_mark * (1 - TRAIL_PCT / 100)) →
        unrealizedPct l.entry_price p ≤ SL_TRIGGER_PCT →
        decide_exit l p = some ExitReason.STOP_LOSS)
    ∧ (HARD_CAP_PRICE ≤ p → unrealizedPct l.entry_price p ≤ SL_TRIGGER_PCT →
        decide_exit l p = some ExitReason.HARD_CAP) := by
  unfold decide_exit
  refine ⟨?_, ?_, ?_, ?_⟩ <;> intros <;> split_ifs <;> rfl

/-- Witness for C1: at entry price 1.1 and sample price 0.95 both the
HARD_CAP and the STOP_LOSS conditions hold, and the exit reason is
HARD_CAP. -/
theorem exit_rules_precedence_witness :
    HARD_CAP_PRICE ≤ (95 / 100 : ℚ)
    ∧ unrealizedPct (11 / 10) (95 / 100) ≤ SL_TRIGGER_PCT
    ∧ decide_exit (initLot (11 / 10) 100) (95 / 100) = some ExitReason.HARD_CAP := by
  refine ⟨by norm_num [HARD_CAP_PRICE], by norm_num [unrealizedPct, SL_TRIGGER_PCT], ?_⟩
  exact (exit_rules_precedence (initLot (11 / 10) 100) (95 / 100)).2.2.2
    (by norm_num [HARD_CAP_PRICE])
    (by norm_num [initLot, unrealizedPct, SL_TRIGGER_PCT])

/-- C2: TP_TRAIL exits only after arming: the trailing flag becomes true
exactly once unrealized return reaches +12%; the high-water mark tracks the
maximum price on every sample; once armed (and HARD_CAP aside) the exit
fires exactly when the price is at most the high-water mark times 0.96;
before arming TP_TRAIL never fires; and for entry 0.75 with prices 0.90
then 0.858 the lot closes with reason TP_TRAIL at exit price 0.858. -/
theorem tp_trail_arming_and_scenario_a :
    (∀ (l : Lot) (p : ℚ), (updateLot l p).trailing_active = false →
      (processSample l p).2 ≠ some ExitReason.TP_TRAIL)
    ∧ (∀ (l : Lot) (p : ℚ), l.trailing_active = false →
        unrealizedPct l.entry_price p < TRIGGER_PCT → (updateLot l p).trailing_active = false)
    ∧ (∀ (l : Lot) (p : ℚ), l.trailing_active = false →
        TRIGGER_PCT ≤ unrealizedPct l.entry_price p → (updateLot l p).trailing_active = true)
    ∧ (∀ (l : Lot) (p : ℚ), (updateLot l p).high_water_mark = max l.high_water_mark p)
    ∧ (∀ (l : Lot) (p : ℚ), ¬ HARD_CAP_PRICE ≤ p → (updateLot l p).trailing_active = true →
        ((processSample l p).2 = some ExitReason.TP_TRAIL ↔
          p ≤ (updateLot l p).high_water_mark * (1 - TRAIL_PCT / 100)))
    ∧ runLot (initLot (3 / 4) 100) [9 / 10, 858 / 1000] =
        LotRun.closed (858 / 1000) ExitReason.TP_TRAIL := by
  refine ⟨?_, ?_, ?_, ?_, ?_, ?_⟩
  · intro l p h
    simp only [processSample, decide_exit]
    split_ifs with h1 h2 h3 <;> simp_all
  · intro l p h hlt
    simp [updateLot, h, not_le.mpr hlt]
  · intro l p h hge
    simp [updateLot, hge]
  · intro l p; rfl
  · intro l p hnc harmed
    simp only [processSample, decide_exit, if_neg hnc]
    split_ifs with htp hsl
    · simp [htp.2]
    · have hX : ¬ p ≤ (updateLot l p).high_water_mark * (1 - TRAIL_PCT / 100) := by
        intro hx
        exact htp ⟨harmed, hx⟩
      simp [hX]
    · have hX : ¬ p ≤ (updateLot l p).high_water_mark * (1 - TRAIL_PCT / 100) := by
        intro hx
        exact htp ⟨harmed, hx⟩
      simp [hX]
  · have h1 : processSample (initLot (3 / 4) 100) (9 / 10) =
        (⟨3 / 4, 100, 9 / 10, true⟩, none) := by
      norm_num [processSample, updateLot, decide_exit, initLot, unrealizedPct,
        TRIGGER_PCT, TRAIL_PCT, HARD_CAP_PRICE, SL_TRIGGER_PCT]
    have h2 : processSample (⟨3 / 4, 100, 9 / 10, true⟩ : Lot) (858 / 1000) =
        (⟨3 / 4, 100, 9 / 10, true⟩, some ExitReason.TP_TRAIL) := by
      norm_num [processSample, updateLot, decide_exit, unrealizedPct,
        TRIGGER_PCT, TRAIL_PCT, HARD_CAP_PRICE]
    simp only [runLot, h1, h2]

/-- Witness for C2: at entry 0.75 a sample at 0.80 (unrealized +6.7%,
below the +12% trigger) leaves the lot unarmed and TP_TRAIL does not
fire. -/
theorem tp_trail_arming_witness :
    (updateLot (initLot (3 / 4) 100) (8 / 10)).trailing_active = false
    ∧ (processSample (initLot (3 / 4) 100) (8 / 10)).2 ≠ some ExitReason.TP_TRAIL := by
  have h : (updateLot (initLot (3 / 4) 100) (8 / 10)).trailing_active = false := by
    norm_num [updateLot, initLot, unrealizedPct, TRIGGER_PCT]
  exact ⟨h, tp_trail_arming_and_scenario_a.1 _ _ h⟩

/-- C3: The NO_POSITION to L1_OPEN transition requires both the cached
copy-eligibility flag and the execution-time executor re-check that the
live price lies in [MIN_PRICE, MAX_PRICE]; for every price outside the
band the executor check refuses and no L1 entry occurs. -/
theorem l1_entry_requires_band (copy_eligible : Bool) (p : ℚ) :
    (enterL1 copy_eligible p = true ↔
      copy_eligible = true ∧ MIN_PRICE ≤ p ∧ p ≤ MAX_PRICE)
    ∧ (p < MIN_PRICE ∨ MAX_PRICE < p →
        simulate_executor_check p = false ∧ enterL1 copy_eligible p = false) := by
  have hexec : simulate_executor_check p = true ↔ MIN_PRICE ≤ p ∧ p ≤ MAX_PRICE := by
    unfold simulate_executor_check
    split_ifs with h1 h2
    · simp only [false_iff]
      intro h
      exact absurd h.1 (not_le.mpr h1)
    · simp only [false_iff]
      intro h
      exact absurd h.2 (not_le.mpr h2)
    · simp only [true_iff]
      exact ⟨not_lt.mp h1, not_lt.mp h2⟩
  constructor
  · unfold enterL1
    rw [Bool.and_eq_true, hexec]
  · intro hout
    cases hsec : simulate_executor_check p with
    | false => exact ⟨rfl, by simp [enterL1, hsec]⟩
    | true =>
      exfalso
      rcases hexec.mp hsec with ⟨hlo, hhi⟩
      rcases hout with hl | hh
      · exact absurd hlo (not_le.mpr hl)
      · exact absurd hhi (not_le.mpr hh)

/-- Witness for C3: at price 0.50, below MIN_PRICE, the executor check
refuses and no L1 entry happens even for an eligible opportunity. -/
theorem l1_entry_requires_band_witness :
    ((1 / 2 : ℚ) < MIN_PRICE ∨ MAX_PRICE < (1 / 2 : ℚ))
    ∧ simulate_executor_check (1 / 2) = false ∧ enterL1 true (1 / 2) = false := by
  have hout : ((1 / 2 : ℚ) < MIN_PRICE ∨ MAX_PRICE < (1 / 2 : ℚ)) :=
    Or.inl (by norm_num [MIN_PRICE])
  exact ⟨hout, (l1_entry_requires_band true (1 / 2)).2 hout⟩

/-- C4: The eligibility filter evaluates side, then price range, then
notional size, short-circuiting on the first failing check, each branch
yielding the corresponding reason code (NOT_A_BUY, PRICE_OUT_OF_RANGE,
SIZE_TOO_SMALL), all checks passing yields eligible; and the function is
pure, so the same trade always yields the same decision. -/
theorem eligibility_check_order (t : WhaleTrade) :
    (t.side ≠ some "BUY" → simulate_eligibility_check t = ⟨false, .notABuy⟩)
    ∧ (t.side = some "BUY" → t.price.getD 0 < MIN_PRICE →
        simulate_eligibility_check t = ⟨false, .priceBelowMin⟩)
    ∧ (t.side = some "BUY" → MAX_PRICE < t.price.getD 0 →
        simulate_eligibility_check t = ⟨false, .priceAboveMax⟩)
    ∧ (t.side = some "BUY" → MIN_PRICE ≤ t.price.getD 0 → t.price.getD 0 ≤ MAX_PRICE →
        t.size.getD 0 * t.price.getD 0 < MIN_WHALE_SIZE →
        simulate_eligibility_check t = ⟨false, .sizeTooSmall⟩)
    ∧ (t.side = some "BUY" → MIN_PRICE ≤ t.price.getD 0 → t.price.getD 0 ≤ MAX_PRICE →
        MIN_WHALE_SIZE ≤ t.size.getD 0 * t.price.getD 0 →
        simulate_eligibility_check t = ⟨true, .passed⟩)
    ∧ (reasonCode .notABuy = .NOT_A_BUY
        ∧ reasonCode .priceBelowMin = .PRICE_OUT_OF_RANGE
        ∧ reasonCode .priceAboveMax = .PRICE_OUT_OF_RANGE
        ∧ reasonCode .sizeTooSmall = .SIZE_TOO_SMALL)
    ∧ simulate_eligibility_check t = simulate_eligibility_check t := by
  have hminmax : MIN_PRICE ≤ MAX_PRICE := by norm_num [MIN_PRICE, MAX_PRICE]
  refine ⟨?_, ?_, ?_, ?_, ?_, ⟨rfl, rfl, rfl, rfl⟩, rfl⟩
  · intro h
    unfold simulate_eligibility_check
    rw [if_pos h]
  · intro hs hlt
    unfold simulate_eligibility_check
    rw [if_neg (by simp [hs]), if_pos hlt]
  · intro hs hgt
    unfold simulate_eligibility_check
    rw [if_neg (by simp [hs]),
      if_neg (not_lt.mpr (le_trans hminmax (le_of_lt hgt))), if_pos hgt]
  · intro hs hlo hhi hsz
    unfold simulate_eligibility_check
    rw [if_neg (by simp [hs]), if_neg (not_lt.mpr hlo), if_neg (not_lt.mpr hhi), if_pos hsz]
  · intro hs hlo hhi hsz
    unfold simulate_eligibility_check
    rw [if_neg (by simp [hs]), if_neg (not_lt.mpr hlo), if_neg (not_lt.mpr hhi),
      if_neg (not_lt.mpr hsz)]

/-- Witness for C4: a SELL trade is rejected with the NOT_A_BUY branch
regardless of its price and size. -/
theorem eligibility_check_order_witness :
    (some "SELL" ≠ some "BUY")
    ∧ simulate_eligibility_check ⟨some "SELL", some (7 / 10), some 1000⟩ =
        ⟨false, .notABuy⟩ := by
  refine ⟨by simp, ?_⟩
  exact (eligibility_check_order ⟨some "SELL", some (7 / 10), some 1000⟩).1 (by simp)

/-- C5: With LIVE_ONLY set, a trade on a market whose game-start time is
after the observation time is never eligible, and when the base checks
pass it is rejected with reason NOT_LIVE; eligibility implies the game
started at or before the observation time. -/
theorem live_only_rejects_pregame (t : WhaleTrade) (game_start_time obs_time : ℤ) :
    (obs_time < game_start_time →
      (evaluateCopyEligibility true t game_start_time obs_time).1 = false)
    ∧ (simulate_eligibility_check t = ⟨true, .passed⟩ → obs_time < game_start_time →
        evaluateCopyEligibility true t game_start_time obs_time = (false, .NOT_LIVE))
    ∧ ((evaluateCopyEligibility true t game_start_time obs_time).1 = true →
        game_start_time ≤ obs_time) := by
  unfold evaluateCopyEligibility
  refine ⟨?_, ?_, ?_⟩
  · intro hpre
    cases hbe : (simulate_eligibility_check t).eligible with
    | false => simp [hbe]
    | true => simp [hbe, hpre]
  · intro hbase hpre
    rw [hbase]
    simp [hpre]
  · intro helig
    by_contra hlate
    rw [Int.not_le] at hlate
    cases hbe : (simulate_eligibility_check t).eligible with
    | false => simp [hbe] at helig
    | true => simp [hbe, hlate] at helig

/-- Witness for C5: an in-band BUY trade of ample size observed at time 3
on a market starting at time 5 is rejected with NOT_LIVE. -/
theorem live_only_rejects_pregame_witness :
    simulate_eligibility_check ⟨some "BUY", some (7 / 10), some 1000⟩ = ⟨true, .passed⟩
    ∧ ((3 : ℤ) < 5)
    ∧ evaluateCopyEligibility true ⟨some "BUY", some (7 / 10), some 1000⟩ 5 3 =
        (false, .NOT_LIVE) := by
  have hbase : simulate_eligibility_check ⟨some "BUY", some (7 / 10), some 1000⟩ =
      ⟨true, .passed⟩ := by
    norm_num [simulate_eligibility_check, MIN_PRICE, MAX_PRICE, MIN_WHALE_SIZE]
  exact ⟨hbase, by norm_num,
    (live_only_rejects_pregame ⟨some "BUY", some (7 / 10), some 1000⟩ 5 3).2.1 hbase
      (by norm_num)⟩

/-- C6: On the recorded paper trades, the high-water mark is at least the
entry price on every row, but the invariant that it dominates every
observed current price fails on row `d6e68f92-...`, whose recorded
high-water mark 0.825 is below its recorded current price 0.99 (and below
its exit price 0.95). -/
theorem hwm_invariant_fails_on_recorded_row :
    (TRADE_DATA.all fun t => decide (t.entry_price ≤ t.high_water_mark)) = true
    ∧ trade_d6e68f92 ∈ TRADE_DATA
    ∧ trade_d6e68f92.high_water_mark < trade_d6e68f92.current_price
    ∧ trade_d6e68f92.high_water_mark < trade_d6e68f92.exit_price := by
  refine ⟨?_, by simp [TRADE_DATA], by norm_num [trade_d6e68f92], by norm_num [trade_d6e68f92]⟩
  simp only [TRADE_DATA, List.all_cons, List.all_nil, Bool.and_eq_true, decide_eq_true_eq]
  norm_num [trade_d6e68f92]

/-- C7: On the recorded paper trades, shares equal cost basis over entry
price within tolerance 1e-9 on every row, but the realized-P&L identity
fails on row `d6e68f92-...`: its recorded realized_pnl 37.6 exceeds
(exit_price - entry_price) * shares by about 5.66, far beyond the
tolerance, and its realized_pct 37.67 differs from realized_pnl despite
cost basis 100. -/
theorem pnl_identity_fails_on_recorded_row :
    (TRADE_DATA.all fun t =>
      decide (-TOL ≤ t.shares - t.cost_basis / t.entry_price) &&
        decide (t.shares - t.cost_basis / t.entry_price ≤ TOL)) = true
    ∧ trade_d6e68f92 ∈ TRADE_DATA
    ∧ trade_d6e68f92.cost_basis = 100
    ∧ TOL < trade_d6e68f92.realized_pnl -
        (trade_d6e68f92.exit_price - trade_d6e68f92.entry_price) * trade_d6e68f92.shares
    ∧ TOL < trade_d6e68f92.realized_pct - trade_d6e68f92.realized_pnl := by
  refine ⟨?_, by simp [TRADE_DATA], by norm_num [trade_d6e68f92],
    by norm_num [trade_d6e68f92, TOL], by norm_num [trade_d6e68f92, TOL]⟩
  simp only [TRADE_DATA, List.all_cons, List.all_nil, Bool.and_eq_true, decide_eq_true_eq]
  norm_num [trade_d6e68f92, TOL]

/-- C8: A level-2 DCA lot opens only while L1 is open, no L2 exists yet,
and unrealized return on L1 has dropped to the -5% trigger; the new lot
has cost basis 75 and fills at the then-current price, which is
entry_price * 0.95 when triggered exactly at -5%; and once an L2 lot
exists the DCA step never adds another lot. -/
theorem dca_opens_once_at_trigger (o : Opportunity) (p : ℚ) :
    ((dcaStep o p).l2 ≠ o.l2 →
      o.l2 = none ∧ o.l1_open = true ∧ unrealizedPct o.l1_entry_price p ≤ L2_TRIGGER_PCT ∧
        (dcaStep o p).l2 = some (initLot p L2_COST_BASIS))
    ∧ (∀ l, o.l2 = some l → dcaStep o p = o)
    ∧ (o.l2 = none → o.l1_open = true → 0 < o.l1_entry_price →
        (dcaStep o (o.l1_entry_price * (95 / 100))).l2 =
          some (initLot (o.l1_entry_price * (95 / 100)) L2_COST_BASIS)) := by
  have htrig : 0 < o.l1_entry_price →
      unrealizedPct o.l1_entry_price (o.l1_entry_price * (95 / 100)) = L2_TRIGGER_PCT := by
    intro hpos
    have hne : o.l1_entry_price ≠ 0 := ne_of_gt hpos
    unfold unrealizedPct L2_TRIGGER_PCT
    field_simp
    ring
  refine ⟨?_, ?_, ?_⟩
  · intro hchange
    cases ho2 : o.l2 with
    | some l => simp [dcaStep, ho2] at hchange
    | none =>
      by_cases hc : o.l1_open = true ∧ unrealizedPct o.l1_entry_price p ≤ L2_TRIGGER_PCT
      · refine ⟨rfl, hc.1, hc.2, ?_⟩
        simp only [dcaStep, ho2]
        rw [if_pos hc]
      · exfalso
        apply hchange
        simp only [dcaStep, ho2]
        rw [if_neg hc, ho2]
  · intro l hl
    unfold dcaStep
    simp [hl]
  · intro ho2 hopen hpos
    unfold dcaStep
    simp only [ho2]
    rw [if_pos ⟨hopen, le_of_eq (htrig hpos)⟩]

/-- Witness for C8: with L1 open at 0.75 and price 0.7125 (exactly -5%),
the DCA step opens the L2 lot at 0.7125 with cost basis 75. -/
theorem dca_opens_once_at_trigger_witness :
    ((⟨3 / 4, true, none⟩ : Opportunity).l2 = none)
    ∧ (0 : ℚ) < 3 / 4
    ∧ (dcaStep ⟨3 / 4, true, none⟩ ((3 / 4) * (95 / 100))).l2 =
        some (initLot ((3 / 4) * (95 / 100)) L2_COST_BASIS) := by
  exact ⟨rfl, by norm_num,
    (dca_opens_once_at_trigger ⟨3 / 4, true, none⟩ ((3 / 4) * (95 / 100))).2.2 rfl rfl
      (by norm_num)⟩

/-- C9 counterexample: a whale trade with a missing price is not excluded
from eligibility evaluation with a malformed-input reason; its absent
price is silently coerced to 0 (the evaluation is identical to that of the
same trade with price 0) and it is rejected by the ordinary
price-below-minimum branch; likewise an unavailable feed price is replaced
by the synthetic value 0. -/
theorem missing_price_is_coerced_to_zero :
    simulate_eligibility_check tradeMissingPrice =
      simulate_eligibility_check { tradeMissingPrice with price := some 0 }
    ∧ simulate_eligibility_check tradeMissingPrice = ⟨false, .priceBelowMin⟩
    ∧ reasonCode (simulate_eligibility_check tradeMissingPrice).reason = .PRICE_OUT_OF_RANGE
    ∧ fetch_current_price .failure = 0 := by
  have h : simulate_eligibility_check tradeMissingPrice = ⟨false, .priceBelowMin⟩ := by
    norm_num [simulate_eligibility_check, tradeMissingPrice, MIN_PRICE]
  have hz : simulate_eligibility_check { tradeMissingPrice with price := some 0 } =
      ⟨false, .priceBelowMin⟩ := by
    norm_num [simulate_eligibility_check, tradeMissingPrice, MIN_PRICE]
  have hr : reasonCode (simulate_eligibility_check tradeMissingPrice).reason =
      .PRICE_OUT_OF_RANGE := by
    rw [h]
    rfl
  exact ⟨h.trans hz.symm, h, hr, rfl⟩

/-- C9 amended: a BUY trade with a missing price reads its price as 0 via
the dict-get default and is rejected by the price-below-minimum branch of
the eligibility filter (not by a malformed-input rejection), and an
unavailable feed price (exception or non-200 status) is returned as the
sentinel 0. -/
theorem missing_price_amended (t : WhaleTrade) (hside : t.side = some "BUY")
    (hmissing : t.price = none) :
    simulate_eligibility_check t = ⟨false, .priceBelowMin⟩
    ∧ fetch_current_price .failure = 0
    ∧ (∀ (status : Nat) (mid : Option ℚ), status ≠ 200 →
        fetch_current_price (.response status mid) = 0) := by
  refine ⟨?_, rfl, ?_⟩
  · unfold simulate_eligibility_check
    rw [if_neg (by simp [hside]), hmissing]
    norm_num [MIN_PRICE]
  · intro status mid hne
    simp [fetch_current_price, hne]

/-- Witness for the C9 amended theorem at the concrete missing-price
trade. -/
theorem missing_price_amended_witness :
    tradeMissingPrice.side = some "BUY"
    ∧ tradeMissingPrice.price = none
    ∧ simulate_eligibility_check tradeMissingPrice = ⟨false, .priceBelowMin⟩ := by
  exact ⟨rfl, rfl, (missing_price_amended tradeMissingPrice rfl rfl).1⟩

/-- C10: fetch_current_price returns the sentinel 0 whenever the request
raises or the status is not 200; the caller runs the executor entry check
only when the returned price is strictly positive, so a feed failure
yields no entry evaluation; and a genuine mid price of 0 on a 200 response
is indistinguishable from feed unavailability at this interface. -/
theorem fetch_sentinel_and_entry_gate (r : FetchOutcome) :
    (r = .failure → fetch_current_price r = 0)
    ∧ (∀ (status : Nat) (mid : Option ℚ), r = .response status mid → status ≠ 200 →
        fetch_current_price r = 0)
    ∧ caller_runs_executor_check true r = decide (0 < fetch_current_price r)
    ∧ (fetch_current_price r = 0 → caller_runs_executor_check true r = false)
    ∧ fetch_current_price (.response 200 (some 0)) = fetch_current_price .failure := by
  refine ⟨?_, ?_, ?_, ?_, ?_⟩
  · intro h; rw [h]; rfl
  · intro status mid hr hne
    rw [hr]
    simp [fetch_current_price, hne]
  · simp [caller_runs_executor_check]
  · intro h
    simp [caller_runs_executor_check, h]
  · rfl

/-- Witness for C10 at the exception outcome: the sentinel 0 is returned
and the caller performs no entry evaluation. -/
theorem fetch_sentinel_and_entry_gate_witness :
    (FetchOutcome.failure = FetchOutcome.failure)
    ∧ fetch_current_price .failure = 0
    ∧ caller_runs_executor_check true .failure = false := by
  have h0 : fetch_current_price .failure = 0 :=
    (fetch_sentinel_and_entry_gate .failure).1 rfl
  exact ⟨rfl, h0, (fetch_sentinel_and_entry_gate .failure).2.2.2.1 h0⟩

end Polystrladder
